import Mathlib

/-!
Verification of the job-search HTTP service in `src/api.py`.

The file shallowly embeds the glue logic of the service: the string
processing on the two AI responses (keyword splitting, search-query
construction, code-fence stripping), the orchestrator
`run_full_job_search`, and the request handler `search_jobs`.  The
external AI service and the JSON parser are opaque collaborators, so the
embedding abstracts them as an environment of response oracles: the two
`generate_content` round trips become functions from the content parts to
`Except` values (an exception message or the response text), and
`json.loads` becomes a function `String → Option J` for an abstract result
type `J` (`none` models a `JSONDecodeError`).
-/

namespace JobSearch

/-- A content part sent to the AI service (embeds `google.genai.types.Part`):
either plain text (`Part.from_text`) or inline binary data tagged with a
mime type (`Part.from_bytes`). -/
inductive Part where
  | text (s : String)
  | bytes (data : List Nat) (mimeType : String)

/-- Python `str.strip()` whitespace class restricted to the ASCII range
(space, tab, newline, carriage return, vertical tab, form feed); the raw AI
responses the code strips are ASCII-fenced, so this is the relevant part of
the Python class. -/
def isPySpace (c : Char) : Bool :=
  c == ' ' || c == '\t' || c == '\n' || c == '\r' || c == '\x0b' || c == '\x0c'

/-- Remove a maximal trailing run of characters satisfying `p` (structural
version of drop-while-from-the-right). -/
def dropTrail (p : Char → Bool) : List Char → List Char
  | [] => []
  | a :: t =>
      match dropTrail p t with
      | [] => if p a then [] else [a]
      | b :: r => a :: b :: r

/-- Python `str.strip()` on the character list: drop leading then trailing
whitespace. -/
def pyStripList (cs : List Char) : List Char :=
  dropTrail isPySpace (cs.dropWhile isPySpace)

/-- Python `str.strip()` (with the ASCII whitespace class `isPySpace`). -/
def pyStrip (s : String) : String :=
  ⟨pyStripList s.data⟩

/-- Python `str.split(",")` on the character list: every comma separates,
empty segments are kept. -/
def splitCommaList : List Char → List (List Char)
  | [] => [[]]
  | c :: rest =>
      let r := splitCommaList rest
      if c == ',' then [] :: r
      else
        match r with
        | [] => [[c]]
        | g :: gs => (c :: g) :: gs

/-- Python `str.split(",")`. -/
def pySplit (s : String) : List String :=
  (splitCommaList s.data).map (fun cs => ⟨cs⟩)

/-- Python `sep.join(xs)`: elements interleaved with the separator. -/
def pyJoin (sep : String) : List String → String
  | [] => ""
  | [s] => s
  | s :: rest => s ++ sep ++ pyJoin sep rest

/-- Python slice `s[a:-b]` (with `b > 0`): drop `a` characters from the
front and `b` from the back, empty when the bounds cross. -/
def pySlice (s : String) (a b : Nat) : String :=
  ⟨(s.data.drop a).take (s.data.length - b - a)⟩

/-- Python `s.startswith(pre)`. -/
def pyStartsWith (s pre : String) : Bool :=
  pre.data.isPrefixOf s.data

/-- Python `s.endswith(suf)`. -/
def pyEndsWith (s suf : String) : Bool :=
  suf.data.reverse.isPrefixOf s.data.reverse

/-- Embeds `get_gemini_parts` (src/api.py lines 24-28): nonempty file bytes
are wrapped as a single inline part; Python truthiness (`if file_bytes:`)
makes empty byte content yield the empty list. -/
def get_gemini_parts (file_bytes : List Nat) (mime_type : String) : List Part :=
  if file_bytes.isEmpty then [] else [Part.bytes file_bytes mime_type]

/-- The Step 1 instruction f-string of `run_full_job_search` (src/api.py
lines 47-52), with the four user inputs interpolated; `\x27` is the
apostrophe character. -/
def text_prompt (job_role qualification location custom_keywords : String) : String :=
  "\n    You are a job AI assistant. Your task is to extract skills and experiences from the provided RESUME (if available) and combine them with the user\x27s explicit inputs below.\n    User Input: Job Role: " ++ job_role ++ ", Qualification: " ++ qualification ++ ", Location: " ++ location ++ ", Custom Keywords: " ++ custom_keywords ++ "\n    Analyze the resume for relevant technical skills, past job titles, and industry focus. Generate a comprehensive, comma-separated list of related keywords and roles for the final search query.\n    Return ONLY the comma-separated keywords and roles, no explanation.\n    "

/-- The Step 2 instruction f-string of `run_full_job_search` (src/api.py
lines 66-74), with the computed search query interpolated. -/
def search_analysis_prompt (search_query : String) : String :=
  "\n    Based on the refined search query: \"" ++ search_query ++ "\", use the Google Search tool to find the top 5 most relevant job postings.\n    For each posting found, extract the \x27title\x27, the \x27link\x27, and the original search \x27snippet\x27. \n    Then, for each posting, perform a secondary analysis to extract these three key points into a JSON sub-object named \x27analysis\x27:\n    1.  Type: (e.g., Full-time, Remote)\n    2.  Requirement: (The single most essential skill)\n    3.  USP: (Unique Selling Point of the job or company)\n    Return the final, structured list of jobs as a strict JSON array.\n    "

/-- Embeds line 61: `[k.strip() for k in keyword_response.text.split(",") if k.strip()]`
— split on commas, keep the pieces whose stripped form is nonempty, and
take the stripped form of each, preserving order. -/
def keywords_list_of (raw : String) : List String :=
  ((pySplit raw).filter (fun k => pyStrip k ≠ "")).map pyStrip

/-- Embeds line 62: `" ".join(keywords_list + [qualification, location])`. -/
def search_query_of (keywords_list : List String) (qualification location : String) : String :=
  pyJoin " " (keywords_list ++ [qualification, location])

/-- Embeds lines 90-94, the fence stripping applied to the second response
before `json.loads`: strip surrounding whitespace; a \x60\x60\x60json-tagged fence
loses 7 leading and 3 trailing characters, a plain \x60\x60\x60 fence loses 3 on
each side, and the remainder is stripped of surrounding whitespace again
(the trailing `.strip()` calls on lines 92 and 94). -/
def clean_text (raw : String) : String :=
  let text := pyStrip raw
  if pyStartsWith text "```json" && pyEndsWith text "```" then
    pyStrip (pySlice text 7 3)
  else if pyStartsWith text "```" && pyEndsWith text "```" then
    pyStrip (pySlice text 3 3)
  else
    text

/-- The fence-stripping rule exactly as the specification words it: after
trimming surrounding whitespace, a json-tagged fence loses exactly the 7
leading and 3 trailing characters, a plain fence exactly 3 on each side,
and otherwise the text is passed on unchanged.  Stated from the
specification (not the source) to compare against `clean_text`. -/
def fence_strip_spec (raw : String) : String :=
  let text := pyStrip raw
  if pyStartsWith text "```json" && pyEndsWith text "```" then
    pySlice text 7 3
  else if pyStartsWith text "```" && pyEndsWith text "```" then
    pySlice text 3 3
  else
    text

/-- Step 1 request contents (src/api.py lines 54-55): a copy of the
handler's `resume_parts` with the text instruction appended. -/
def step1_contents (resume_parts : List Part)
    (job_role qualification location custom_keywords : String) : List Part :=
  resume_parts ++ [Part.text (text_prompt job_role qualification location custom_keywords)]

/-- The opaque collaborators of one request: the two
`client.models.generate_content` round trips (each either raises, modelled
as `Except.error` with the exception text, or returns the response text)
and `json.loads` (`none` models a `JSONDecodeError`), for an abstract
parsed-JSON type `J`. -/
structure AIEnv (J : Type) where
  generate1 : List Part → Except String String
  generate2 : List Part → Except String String
  parse : String → Option J

/-- The success value of `run_full_job_search` (src/api.py line 99). -/
structure SearchData (J : Type) where
  search_query : String
  keywords : List String
  results : J

/-- Embeds `run_full_job_search` (src/api.py lines 37-99): build the Step 1
contents, call the AI service, derive the keyword list and search query,
make the search+analysis call, fence-strip and parse its text, and return
the composite result.  Any exception from either call or from parsing
propagates as `Except.error`. -/
def run_full_job_search {J : Type}
    (job_role qualification location custom_keywords : String)
    (resume_parts : List Part) (env : AIEnv J) : Except String (SearchData J) :=
  let contents := step1_contents resume_parts job_role qualification location custom_keywords
  match env.generate1 contents with
  | Except.error e => Except.error e
  | Except.ok raw1 =>
      let keywords_list := keywords_list_of raw1
      let search_query := search_query_of keywords_list qualification location
      let final_contents := [Part.text (search_analysis_prompt search_query)]
      match env.generate2 final_contents with
      | Except.error e => Except.error e
      | Except.ok raw2 =>
          match env.parse (clean_text raw2) with
          | none => Except.error "JSONDecodeError"
          | some results => Except.ok ⟨search_query, keywords_list, results⟩

/-- Outcome of `await resume_file.read()` plus `resume_file.content_type`
for a present upload (src/api.py lines 119-120): the bytes and declared
mime type, or the string representation of the raised exception. -/
inductive ReadOutcome where
  | ok (file_bytes : List Nat) (content_type : String)
  | failed (e : String)

/-- The three response-body shapes the handler can produce: the success
payload, the file-read failure `JSONResponse` body
(a JSON object with a single `message` field), and the `HTTPException`
detail body. -/
inductive RespBody (J : Type) where
  | success (data : SearchData J)
  | message (msg : String)
  | detail (msg : String)

/-- An HTTP response as the handler shapes it: status code and body. -/
structure HttpResponse (J : Type) where
  status_code : Nat
  body : RespBody J

/-- The fixed `HTTPException` detail of the broad handler
(src/api.py line 136). -/
def ai_error_detail : String :=
  "The AI search service failed to process the request. Try refining your query."

/-- The `resume_parts` value the handler passes to the orchestrator
(src/api.py lines 116-121): `[]` when no file is present, otherwise
`get_gemini_parts` of the read bytes and declared mime type. -/
def handler_resume_parts : Option ReadOutcome → List Part
  | some (ReadOutcome.ok fb mt) => get_gemini_parts fb mt
  | _ => []

/-- Embeds the `search_jobs` endpoint (src/api.py lines 105-137).  A failed
file read returns early with the diagnostic `message` body; otherwise the
orchestrator runs, a success becomes a 200 with the result object and any
exception becomes the fixed 500 `detail` (the `print` log is a server-side
effect outside the model).  The boolean records whether the orchestrator
was invoked. -/
def search_jobs {J : Type} (job_role qualification location custom_keywords : String)
    (resume_file : Option ReadOutcome) (env : AIEnv J) : HttpResponse J × Bool :=
  match resume_file with
  | some (ReadOutcome.failed e) =>
      (⟨500, RespBody.message ("File reading failed: " ++ e)⟩, false)
  | _ =>
      match run_full_job_search job_role qualification location custom_keywords
          (handler_resume_parts resume_file) env with
      | Except.ok data => (⟨200, RespBody.success data⟩, true)
      | Except.error _ => (⟨500, RespBody.detail ai_error_detail⟩, true)

/-- Which list object the local `contents` of `run_full_job_search` is
bound to after line 54.  `resume_parts[:]` allocates a fresh copy, so the
source binds it to `freshCopy`; binding it to `callerList` would model the
aliasing code `contents = resume_parts`. -/
inductive ListRef where
  | callerList
  | freshCopy

/-- Line 54 of src/api.py is `contents = resume_parts[:]`: a slice of the
whole list allocates a fresh object. -/
def contents_ref : ListRef := ListRef.freshCopy

/-- The value of the caller's `resume_parts` list object after lines 54-55
run, as a function of which object `contents` aliases: the `append` on
line 55 mutates the caller's list exactly when `contents` aliases it. -/
def caller_resume_parts_after (resume_parts : List Part) (appended : Part) : List Part :=
  match contents_ref with
  | ListRef.freshCopy => resume_parts
  | ListRef.callerList => resume_parts ++ [appended]

/-! ## Helper lemmas -/

theorem dropTrail_nil (p : Char → Bool) : dropTrail p [] = [] := rfl

theorem dropTrail_cons (p : Char → Bool) (a : Char) (t : List Char) :
    dropTrail p (a :: t) =
      match dropTrail p t with
      | [] => if p a then [] else [a]
      | b :: r => a :: b :: r := rfl

theorem dropTrail_idem (p : Char → Bool) (l : List Char) :
    dropTrail p (dropTrail p l) = dropTrail p l := by
  induction l with
  | nil => rfl
  | cons a t ih =>
      cases h : dropTrail p t with
      | nil =>
          by_cases hpa : p a
          · have hat : dropTrail p (a :: t) = [] := by
              rw [dropTrail_cons, h]; simp [hpa]
            rw [hat, dropTrail_nil]
          · have hat : dropTrail p (a :: t) = [a] := by
              rw [dropTrail_cons, h]; simp [hpa]
            rw [hat, dropTrail_cons, dropTrail_nil]
            simp [hpa]
      | cons b r =>
          have hbr : dropTrail p (b :: r) = b :: r := by
            rw [← h, ih, h]
          have hat : dropTrail p (a :: t) = a :: b :: r := by
            rw [dropTrail_cons, h]
          rw [hat, dropTrail_cons, hbr]

theorem dropWhile_head_false (p : Char → Bool) (l : List Char) :
    l.dropWhile p = [] ∨ ∃ a t, l.dropWhile p = a :: t ∧ p a = false := by
  induction l with
  | nil => exact Or.inl rfl
  | cons a t ih =>
      by_cases h : p a
      · simpa [List.dropWhile_cons, h] using ih
      · exact Or.inr ⟨a, t, by simp [List.dropWhile_cons, h], by simp [h]⟩

theorem dropWhile_dropTrail (p : Char → Bool) (l : List Char)
    (hl : l = [] ∨ ∃ a t, l = a :: t ∧ p a = false) :
    List.dropWhile p (dropTrail p l) = dropTrail p l := by
  rcases hl with rfl | ⟨a, t, rfl, hpa⟩
  · rfl
  · cases h : dropTrail p t with
    | nil => simp [dropTrail, h, hpa, List.dropWhile_cons]
    | cons b r => simp [dropTrail, h, hpa, List.dropWhile_cons]

theorem pyStripList_idem (cs : List Char) :
    pyStripList (pyStripList cs) = pyStripList cs := by
  unfold pyStripList
  rw [dropWhile_dropTrail isPySpace (cs.dropWhile isPySpace)
    (dropWhile_head_false isPySpace cs)]
  exact dropTrail_idem isPySpace (cs.dropWhile isPySpace)

theorem pyStrip_idem (s : String) : pyStrip (pyStrip s) = pyStrip s := by
  unfold pyStrip
  exact congrArg String.mk (pyStripList_idem s.data)

theorem string_append_assoc (a b c : String) : a ++ b ++ c = a ++ (b ++ c) := by
  apply String.ext
  simp [String.data_append, List.append_assoc]

theorem pyJoin_append_two (kws : List String) (q l : String) (h : kws ≠ []) :
    pyJoin " " (kws ++ [q, l]) = pyJoin " " kws ++ " " ++ q ++ " " ++ l := by
  induction kws with
  | nil => exact absurd rfl h
  | cons a t ih =>
      cases t with
      | nil => simp [pyJoin, string_append_assoc]
      | cons b r =>
          have ih' := ih (by simp)
          calc pyJoin " " ((a :: b :: r) ++ [q, l])
              = a ++ " " ++ pyJoin " " ((b :: r) ++ [q, l]) := by
                simp [pyJoin]
            _ = a ++ " " ++ (pyJoin " " (b :: r) ++ " " ++ q ++ " " ++ l) := by
                rw [ih']
            _ = pyJoin " " (a :: b :: r) ++ " " ++ q ++ " " ++ l := by
                simp [pyJoin, string_append_assoc]

/-- Unpacking a successful orchestrator run: the first response text exists
and the returned keywords and search query are derived from it by the
line 61-62 constructions. -/
theorem run_ok_extract {J : Type}
    (job_role qualification location custom_keywords : String)
    (resume_parts : List Part) (env : AIEnv J) (data : SearchData J)
    (h : run_full_job_search job_role qualification location custom_keywords
          resume_parts env = Except.ok data) :
    ∃ raw1,
      env.generate1 (step1_contents resume_parts job_role qualification location
        custom_keywords) = Except.ok raw1 ∧
      data.keywords = keywords_list_of raw1 ∧
      data.search_query = search_query_of (keywords_list_of raw1) qualification location := by
  simp only [run_full_job_search] at h
  cases h1 : env.generate1 (step1_contents resume_parts job_role qualification location
      custom_keywords) with
  | error e => simp only [h1] at h; exact Except.noConfusion h
  | ok raw1 =>
      refine ⟨raw1, rfl, ?_⟩
      simp only [h1] at h
      cases h2 : env.generate2 [Part.text (search_analysis_prompt
          (search_query_of (keywords_list_of raw1) qualification location))] with
      | error e => simp only [h2] at h; exact Except.noConfusion h
      | ok raw2 =>
          simp only [h2] at h
          cases hp : env.parse (clean_text raw2) with
          | none => simp only [hp] at h; exact Except.noConfusion h
          | some results =>
              simp only [hp, Except.ok.injEq] at h
              subst h
              exact ⟨rfl, rfl⟩

/-! ## Concrete environments used by the witnesses -/

/-- An environment whose first call answers the fixed keyword string of the
specification, whose second call answers an empty JSON array, and whose
parser succeeds on everything. -/
def envA : AIEnv Unit :=
  ⟨fun _ => Except.ok "Python, Remote, Backend",
   fun _ => Except.ok "[]",
   fun _ => some ()⟩

/-- An environment whose second response is not valid JSON: both calls
succeed but the parser rejects every string. -/
def envBad : AIEnv Unit :=
  ⟨fun _ => Except.ok "Python, Remote, Backend",
   fun _ => Except.ok "this is not json",
   fun _ => none⟩

/-- The success value produced by a run against `envA` with
qualification "BSc" and location "Remote". -/
def dataA : SearchData Unit :=
  ⟨"Python Remote Backend BSc Remote", ["Python", "Remote", "Backend"], ()⟩

/-! ## Claim theorems -/

/-- C1: every success result of `run_full_job_search` carries a
`search_query` that is exactly its keyword list joined by single spaces
followed by the qualification and the location, in that fixed order (so the
string is never supplied independently of this construction); in
particular, keywords ["Python", "Remote", "Backend"] with qualification
"BSc" and location "Remote" give exactly "Python Remote Backend BSc
Remote". -/
theorem search_query_construction {J : Type}
    (job_role qualification location custom_keywords : String)
    (resume_parts : List Part) (env : AIEnv J) (data : SearchData J)
    (h : run_full_job_search job_role qualification location custom_keywords
          resume_parts env = Except.ok data) :
    data.search_query = pyJoin " " (data.keywords ++ [qualification, location]) ∧
    (data.keywords ≠ [] →
      data.search_query =
        pyJoin " " data.keywords ++ " " ++ qualification ++ " " ++ location) ∧
    keywords_list_of "Python, Remote, Backend" = ["Python", "Remote", "Backend"] ∧
    search_query_of ["Python", "Remote", "Backend"] "BSc" "Remote" =
      "Python Remote Backend BSc Remote" := by
  obtain ⟨raw1, h1, hk, hq⟩ :=
    run_ok_extract job_role qualification location custom_keywords resume_parts env data h
  refine ⟨?_, ?_, by decide, by decide⟩
  · rw [hq, hk]; rfl
  · intro hne
    rw [hq, hk]
    exact pyJoin_append_two (keywords_list_of raw1) qualification location
      (by rw [← hk]; exact hne)

/-- Witness for `search_query_construction` at a concrete run against
`envA`. -/
theorem search_query_construction_witness :
    dataA.search_query = pyJoin " " (dataA.keywords ++ ["BSc", "Remote"]) ∧
    (dataA.keywords ≠ [] →
      dataA.search_query = pyJoin " " dataA.keywords ++ " " ++ "BSc" ++ " " ++ "Remote") ∧
    keywords_list_of "Python, Remote, Backend" = ["Python", "Remote", "Backend"] ∧
    search_query_of ["Python", "Remote", "Backend"] "BSc" "Remote" =
      "Python Remote Backend BSc Remote" :=
  search_query_construction "Dev" "BSc" "Remote" "" [] envA dataA (by rfl)

/-- C2: the keyword list is the comma-split of the first response with each
piece stripped and empty pieces discarded, in order: "Python,, Remote,"
yields exactly ["Python", "Remote"], and every member of any keyword list
is nonempty and carries no leading or trailing whitespace (it is fixed by
`pyStrip`). -/
theorem keyword_extraction_clean (raw k : String) (hk : k ∈ keywords_list_of raw) :
    keywords_list_of "Python,, Remote," = ["Python", "Remote"] ∧
    k ≠ "" ∧ pyStrip k = k := by
  unfold keywords_list_of at hk
  obtain ⟨s, hs, rfl⟩ := List.mem_map.mp hk
  have hne : pyStrip s ≠ "" := by
    have h2 := (List.mem_filter.mp hs).2
    simpa using h2
  exact ⟨by decide, hne, pyStrip_idem s⟩

/-- Witness for `keyword_extraction_clean` at the membership
"Python" ∈ keywords_list_of "Python,, Remote,". -/
theorem keyword_extraction_clean_witness :
    keywords_list_of "Python,, Remote," = ["Python", "Remote"] ∧
    "Python" ≠ "" ∧ pyStrip "Python" = "Python" :=
  keyword_extraction_clean "Python,, Remote," "Python" (by decide)

/-- C3 counterexample: the code does not strip exactly the 7 leading and 3
trailing characters of a json-tagged fence before parsing — it additionally
strips the surrounding whitespace of the remainder.  On the response
"\x60\x60\x60json 1 \x60\x60\x60" the claim predicts the parsed text " 1 "
(`fence_strip_spec`), while the code parses "1" (`clean_text`). -/
theorem fence_strip_exact_counterexample :
    clean_text "```json 1 ```" = "1" ∧
    fence_strip_spec "```json 1 ```" = " 1 " ∧
    clean_text "```json 1 ```" ≠ fence_strip_spec "```json 1 ```" :=
  ⟨by decide, by decide, by decide⟩

/-- C3 (amended): for every second-stage response text, the parsed text is
the claim's fence-stripping (after whitespace trimming, exactly 7/3
characters for a json-tagged fence, 3/3 for a plain fence — the tagged
check taking precedence — and unchanged otherwise) followed by one more
trim of surrounding whitespace. -/
theorem fence_strip_amended (raw : String) :
    clean_text raw = pyStrip (fence_strip_spec raw) := by
  unfold clean_text fence_strip_spec
  by_cases h1 : (pyStartsWith (pyStrip raw) "```json" && pyEndsWith (pyStrip raw) "```") = true
  · simp [h1]
  · by_cases h2 : (pyStartsWith (pyStrip raw) "```" && pyEndsWith (pyStrip raw) "```") = true
    · simp [h1, h2]
    · simp [h1, h2, pyStrip_idem]

/-- C4: when both AI calls succeed but the second response is not valid
JSON after fence-stripping, the parse failure propagates out of the
orchestrator as an exception and the handler turns it into the fixed
HTTP 500 detail response — no partial body (no search_query, keywords or
results) is returned. -/
theorem invalid_json_yields_500 {J : Type}
    (job_role qualification location custom_keywords : String)
    (resume_file : Option ReadOutcome) (env : AIEnv J) (raw1 raw2 : String)
    (hfile : ∀ e, resume_file ≠ some (ReadOutcome.failed e))
    (h1 : env.generate1 (step1_contents (handler_resume_parts resume_file)
            job_role qualification location custom_keywords) = Except.ok raw1)
    (h2 : env.generate2 [Part.text (search_analysis_prompt
            (search_query_of (keywords_list_of raw1) qualification location))] =
          Except.ok raw2)
    (hp : env.parse (clean_text raw2) = none) :
    run_full_job_search job_role qualification location custom_keywords
        (handler_resume_parts resume_file) env = Except.error "JSONDecodeError" ∧
    search_jobs job_role qualification location custom_keywords resume_file env =
      (⟨500, RespBody.detail ai_error_detail⟩, true) := by
  have hrun : run_full_job_search job_role qualification location custom_keywords
      (handler_resume_parts resume_file) env = Except.error "JSONDecodeError" := by
    simp only [run_full_job_search, h1, h2, hp]
  refine ⟨hrun, ?_⟩
  cases resume_file with
  | none => simp only [search_jobs, hrun]
  | some ro =>
      cases ro with
      | ok fb mt => simp only [search_jobs, hrun]
      | failed e => exact absurd rfl (hfile e)

/-- Witness for `invalid_json_yields_500` against `envBad`, whose second
response text is rejected by the parser. -/
theorem invalid_json_yields_500_witness :
    run_full_job_search "Dev" "BSc" "Remote" "" (handler_resume_parts none) envBad =
      Except.error "JSONDecodeError" ∧
    search_jobs "Dev" "BSc" "Remote" "" none envBad =
      (⟨500, RespBody.detail ai_error_detail⟩, true) :=
  invalid_json_yields_500 "Dev" "BSc" "Remote" "" none envBad
    "Python, Remote, Backend" "this is not json"
    (fun _ h => Option.noConfusion h) (by rfl) (by rfl) (by rfl)

/-- C5: every exception raised inside the orchestrator after the file-read
stage — whatever its text `err` — produces the same opaque HTTP 500
response carrying only the fixed detail string; the exception text never
appears in the response (the conclusion does not depend on `err`). -/
theorem orchestration_failure_opaque_500 {J : Type}
    (job_role qualification location custom_keywords : String)
    (resume_file : Option ReadOutcome) (env : AIEnv J) (err : String)
    (hfile : ∀ e, resume_file ≠ some (ReadOutcome.failed e))
    (herr : run_full_job_search job_role qualification location custom_keywords
        (handler_resume_parts resume_file) env = Except.error err) :
    search_jobs job_role qualification location custom_keywords resume_file env =
      (⟨500, RespBody.detail ai_error_detail⟩, true) ∧
    ai_error_detail =
      "The AI search service failed to process the request. Try refining your query." := by
  refine ⟨?_, rfl⟩
  cases resume_file with
  | none => simp only [search_jobs, herr]
  | some ro =>
      cases ro with
      | ok fb mt => simp only [search_jobs, herr]
      | failed e => exact absurd rfl (hfile e)

/-- Witness for `orchestration_failure_opaque_500` at the concrete parse
failure of `envBad`. -/
theorem orchestration_failure_opaque_500_witness :
    search_jobs "Dev" "BSc" "Remote" "" none envBad =
      (⟨500, RespBody.detail ai_error_detail⟩, true) ∧
    ai_error_detail =
      "The AI search service failed to process the request. Try refining your query." :=
  orchestration_failure_opaque_500 "Dev" "BSc" "Remote" "" none envBad "JSONDecodeError"
    (fun _ h => Option.noConfusion h) (by rfl)

/-- C6: a failed resume read returns HTTP 500 with body
message = "File reading failed: " followed by the exception text, and the
orchestrator is never invoked — the flag is `false` and the response does
not depend on the AI environment `env`. -/
theorem file_read_failure_response {J : Type}
    (job_role qualification location custom_keywords e : String) (env : AIEnv J) :
    search_jobs job_role qualification location custom_keywords
        (some (ReadOutcome.failed e)) env =
      (⟨500, RespBody.message ("File reading failed: " ++ e)⟩, false) := rfl

/-- C7: with no resume file the Step 1 content sequence is exactly the
single text instruction — it contains no binary part — and keyword
extraction proceeds unchanged on that text-only content: a success result
still carries the keyword list derived from the first response. -/
theorem no_resume_text_only {J : Type}
    (job_role qualification location custom_keywords raw1 : String)
    (env : AIEnv J) (data : SearchData J)
    (h1 : env.generate1 [Part.text (text_prompt job_role qualification location
            custom_keywords)] = Except.ok raw1)
    (hrun : run_full_job_search job_role qualification location custom_keywords
        (handler_resume_parts none) env = Except.ok data) :
    handler_resume_parts none = [] ∧
    step1_contents (handler_resume_parts none) job_role qualification location
        custom_keywords =
      [Part.text (text_prompt job_role qualification location custom_keywords)] ∧
    (∀ p ∈ step1_contents (handler_resume_parts none) job_role qualification location
        custom_keywords, ∃ s, p = Part.text s) ∧
    data.keywords = keywords_list_of raw1 := by
  refine ⟨rfl, rfl, ?_, ?_⟩
  · intro p hp
    simp only [handler_resume_parts, step1_contents, List.nil_append,
      List.mem_singleton] at hp
    exact ⟨_, hp⟩
  · obtain ⟨raw1', h1', hk, hq⟩ :=
      run_ok_extract job_role qualification location custom_keywords
        (handler_resume_parts none) env data hrun
    have e1 : step1_contents (handler_resume_parts none) job_role qualification location
        custom_keywords =
        [Part.text (text_prompt job_role qualification location custom_keywords)] := rfl
    rw [e1] at h1'
    have hray : raw1' = raw1 := Except.ok.inj (h1'.symm.trans h1)
    rw [hk, hray]

/-- Witness for `no_resume_text_only` at a concrete run against `envA`. -/
theorem no_resume_text_only_witness :
    handler_resume_parts none = [] ∧
    step1_contents (handler_resume_parts none) "Dev" "BSc" "Remote" "" =
      [Part.text (text_prompt "Dev" "BSc" "Remote" "")] ∧
    (∀ p ∈ step1_contents (handler_resume_parts none) "Dev" "BSc" "Remote" "",
      ∃ s, p = Part.text s) ∧
    dataA.keywords = keywords_list_of "Python, Remote, Backend" :=
  no_resume_text_only "Dev" "BSc" "Remote" "" "Python, Remote, Backend" envA dataA
    (by rfl) (by rfl)

/-- C8: `run_full_job_search` appends the Step 1 instruction to a fresh
copy of `resume_parts` (line 54 is `resume_parts[:]`), so the caller's list
object holds the same elements after the call. -/
theorem resume_parts_not_mutated
    (resume_parts : List Part) (job_role qualification location custom_keywords : String) :
    caller_resume_parts_after resume_parts
        (Part.text (text_prompt job_role qualification location custom_keywords)) =
      resume_parts ∧
    contents_ref = ListRef.freshCopy :=
  ⟨rfl, rfl⟩

/-- C9: a resume file that reads as zero bytes is treated identically to a
request with no resume file: `get_gemini_parts` yields the empty part list,
the Step 1 contents are the single text instruction with no binary part,
and the handler's response is the same as in the no-file case. -/
theorem empty_file_like_no_file {J : Type}
    (mime job_role qualification location custom_keywords : String) (env : AIEnv J) :
    get_gemini_parts [] mime = [] ∧
    handler_resume_parts (some (ReadOutcome.ok [] mime)) = handler_resume_parts none ∧
    step1_contents (handler_resume_parts (some (ReadOutcome.ok [] mime)))
        job_role qualification location custom_keywords =
      [Part.text (text_prompt job_role qualification location custom_keywords)] ∧
    search_jobs job_role qualification location custom_keywords
        (some (ReadOutcome.ok [] mime)) env =
      search_jobs job_role qualification location custom_keywords none env :=
  ⟨rfl, rfl, rfl, rfl⟩

/-- C10: the glue logic is deterministic once the AI responses are held
fixed — two runs with equal inputs and environments that answer equally on
the requests actually made produce equal results. -/
theorem glue_deterministic {J : Type}
    (job_role qualification location custom_keywords : String)
    (resume_parts : List Part) (env env' : AIEnv J)
    (h1 : env.generate1 (step1_contents resume_parts job_role qualification location
            custom_keywords) =
          env'.generate1 (step1_contents resume_parts job_role qualification location
            custom_keywords))
    (h2 : ∀ c, env.generate2 c = env'.generate2 c)
    (hp : ∀ s, env.parse s = env'.parse s) :
    run_full_job_search job_role qualification location custom_keywords resume_parts env =
      run_full_job_search job_role qualification location custom_keywords resume_parts env' := by
  simp only [run_full_job_search]
  rw [← h1]
  cases env.generate1 (step1_contents resume_parts job_role qualification location
      custom_keywords) with
  | error e => rfl
  | ok raw1 =>
      dsimp only
      rw [← h2]
      cases env.generate2 [Part.text (search_analysis_prompt
          (search_query_of (keywords_list_of raw1) qualification location))] with
      | error e => rfl
      | ok raw2 =>
          dsimp only
          rw [← hp]

/-- Witness for `glue_deterministic` with both environments `envA`. -/
theorem glue_deterministic_witness :
    run_full_job_search "Dev" "BSc" "Remote" "" [] envA =
      run_full_job_search "Dev" "BSc" "Remote" "" [] envA :=
  glue_deterministic "Dev" "BSc" "Remote" "" [] envA envA rfl
    (fun _ => rfl) (fun _ => rfl)

end JobSearch
